import Mathlib

/-!
Shallow embedding of `cuesubmit/Submission.py` (OpenCue job-submission
building): flag formatting, per-renderer command builders, layer assembly
(threadable resolution, dependency wiring) and job assembly.

Python values flowing through the layer parameter mappings are strings,
booleans or `None`; they are modelled by `PyVal` with Python truthiness.
Machine floats appear only as `float(layerData.cores)` used in order
comparisons against the integers 2 and 0, so cores are modelled as `ℚ`.
Regular expressions in the source are the three concrete patterns
matched by `isSoloFlag`, `isFlag` and the frame-range check; each is
translated to an explicit character-level predicate (Python's `\w` and
`\d` are modelled at ASCII, which covers every value the claims range
over). `shlex.split` (POSIX mode, whitespace splitting) is modelled by
`shlexSplit`, returning `none` where Python raises (unclosed quote or
dangling escape).
-/

namespace OpenCueSub

/-- A Python value as it appears in a layer's `cmd` mapping: `None`, a
string, or a boolean. -/
inductive PyVal where
  | none
  | str (s : String)
  | bool (b : Bool)
deriving DecidableEq, Repr

/-- Python truthiness of a `PyVal`: `None` and `''` are falsy. -/
def PyVal.truthy : PyVal → Bool
  | .none => false
  | .str s => !s.isEmpty
  | .bool b => b

/-- Python `str()` of a `PyVal`, as used by f-string interpolation. -/
def pyStr : PyVal → String
  | .none => "None"
  | .str s => s
  | .bool b => if b then "True" else "False"

/-- Dictionary lookup on the (uniquely keyed) parameter mapping. -/
def pyLookup (m : List (String × PyVal)) (k : String) : Option PyVal :=
  (m.find? (fun e => e.1 = k)).map (fun e => e.2)

/-- Python `dict.get(k)`: `None` when the key is absent. -/
def pyGet (m : List (String × PyVal)) (k : String) : PyVal :=
  (pyLookup m k).getD .none

/-- Python `dict.get(k, d)`: default `d` when the key is absent. -/
def pyGetD (m : List (String × PyVal)) (k : String) (d : PyVal) : PyVal :=
  (pyLookup m k).getD d

/-- Python `\w` word character, at ASCII: letters, digits, underscore. -/
def isWordChar (c : Char) : Bool :=
  c.isAlphanum || c = '_'

/-- Model of `isSoloFlag` (Submission.py line 36): `re.match(r"^-+\w+~$", flag)`
— one or more dashes, one or more word characters, a trailing tilde. -/
def isSoloFlag (flag : String) : Bool :=
  let cs := flag.toList
  let dashes := cs.takeWhile (fun c => c = '-')
  let rest := cs.dropWhile (fun c => c = '-')
  !dashes.isEmpty &&
    (match rest.getLast? with
     | some '~' => !rest.dropLast.isEmpty && rest.dropLast.all isWordChar
     | _ => false)

/-- Model of `isFlag` (line 43): `re.match(r"^-+\w+$", flag)` — one or more
dashes then one or more word characters. -/
def isFlag (flag : String) : Bool :=
  let cs := flag.toList
  let dashes := cs.takeWhile (fun c => c = '-')
  let rest := cs.dropWhile (fun c => c = '-')
  !dashes.isEmpty && !rest.isEmpty && rest.all isWordChar

/-- The frame-range pattern of `buildBlenderCmd` (line 134):
`re.match(r"^\d+-\d+$", frameRange)` — digits, dash, digits. -/
def isFrameRangePattern (s : String) : Bool :=
  let cs := s.toList
  let a := cs.takeWhile Char.isDigit
  match cs.dropWhile Char.isDigit with
  | '-' :: b => !a.isEmpty && !b.isEmpty && b.all Char.isDigit
  | _ => false

/-- Modelled from the spec (the module `cuesubmit.Constants` is not under
src/): the Maya renderer executable, a configured default. -/
def MAYA_RENDER_CMD : String := "Render"

/-- Modelled from the spec: the Nuke renderer executable default. -/
def NUKE_RENDER_CMD : String := "nuke"

/-- Modelled from the spec: the Blender renderer executable default. -/
def BLENDER_RENDER_CMD : String := "blender"

/-- Modelled from the spec: frame-range start placeholder substituted
later by the scheduler. -/
def FRAME_START_TOKEN : String := "#FRAME_START#"

/-- Modelled from the spec: frame-range end placeholder. -/
def FRAME_END_TOKEN : String := "#FRAME_END#"

/-- Modelled from the spec: single-frame placeholder token. -/
def FRAME_TOKEN : String := "#IFRAME#"

/-- Model of `formatValue` (line 48): quotes path values, substitutes the
missing-mandatory sentinel. `value in ('', None)` is equality with the
empty string or `None`. -/
def formatValue (flag : String) (value : PyVal) (isPath isMandatory : Bool) : PyVal :=
  let value := if isPath && value.truthy then .str ("\"" ++ pyStr value ++ "\"") else value
  if isMandatory && (value = .str "" || value = .none) then
    .str ("!!missing value for " ++ flag ++ "!!")
  else value

/-- A key of the dynamic builder's `cmd` mapping:
the `(flag, isPath, isMandatory)` tuple. -/
structure DynFlag where
  flag : String
  isPath : Bool
  isMandatory : Bool
deriving DecidableEq, Repr

/-- One iteration of the loop body of `buildDynamicCmd` (lines 62-73):
append a solo flag bare (tilde stripped, value ignored), else a
recognized flag with its formatted value, else the value alone. -/
def dynStep (acc : String) (e : DynFlag × PyVal) : String :=
  let f := e.1
  let value := e.2
  if isSoloFlag f.flag then acc ++ " " ++ f.flag.dropRight 1
  else
    let v := formatValue f.flag value f.isPath f.isMandatory
    if isFlag f.flag && !(v = .str "" || v = .none) then
      acc ++ " " ++ f.flag ++ " " ++ pyStr v
    else if !(v = .str "" || v = .none) then
      acc ++ " " ++ pyStr v
    else acc

/-- Model of `buildDynamicCmd` (line 59), with the base command template
(`Constants.RENDER_CMDS[layerType].get('command')`) passed in, folded
over the mapping entries in mapping order. -/
def buildDynamicCmd (baseCmd : String) (entries : List (DynFlag × PyVal)) : String :=
  entries.foldl dynStep baseCmd

/-- Tokenizer state of the `shlex` model: outside quotes, inside single
quotes, inside double quotes. -/
inductive ShMode where
  | norm
  | single
  | double
deriving DecidableEq, Repr

/-- The `shlex` whitespace characters. -/
def isShWhitespace (c : Char) : Bool :=
  c = ' ' || c = '\t' || c = '\r' || c = '\n'

/-- Worker for `shlexSplit`: `started` records whether a token is open
(so `""` yields an empty token), `cur` the characters of the open token,
`acc` the finished tokens. `none` models the `ValueError` Python raises
on an unclosed quote or a dangling escape. -/
def shlexAux (st : ShMode) (started : Bool) (cur : List Char) (acc : List String) :
    List Char → Option (List String)
  | [] =>
      match st with
      | .norm => some (if started then acc ++ [String.mk cur] else acc)
      | _ => Option.none
  | c :: rest =>
      match st with
      | .norm =>
          if isShWhitespace c then
            if started then shlexAux .norm false [] (acc ++ [String.mk cur]) rest
            else shlexAux .norm false [] acc rest
          else if c = '\'' then shlexAux .single true cur acc rest
          else if c = '"' then shlexAux .double true cur acc rest
          else if c = '\\' then
            match rest with
            | [] => Option.none
            | d :: rest2 => shlexAux .norm true (cur ++ [d]) acc rest2
          else shlexAux .norm true (cur ++ [c]) acc rest
      | .single =>
          if c = '\'' then shlexAux .norm true cur acc rest
          else shlexAux .single true (cur ++ [c]) acc rest
      | .double =>
          if c = '"' then shlexAux .norm true cur acc rest
          else if c = '\\' then
            match rest with
            | [] => Option.none
            | d :: rest2 =>
                if d = '"' || d = '\\' then shlexAux .double true (cur ++ [d]) acc rest2
                else shlexAux .double true (cur ++ ['\\', d]) acc rest2
          else shlexAux .double true (cur ++ [c]) acc rest

/-- Model of `shlex.split` in POSIX mode with whitespace splitting, as
used at Submission.py lines 158 and 185. -/
def shlexSplit (s : String) : Option (List String) :=
  shlexAux .norm false [] [] s.toList

/-- Modelled from the spec (the module `cuesubmit.JobTypes` is not under
src/): the closed enumeration of layer types — dynamic, config-driven
types (the members of `JobTypes.FROM_CONFIG_FILE`, carrying their config
key), the four named engines, and unrecognized type tags. -/
inductive LayerType where
  | dynamicConfig (key : String)
  | maya
  | shell
  | nuke
  | blender
  | unrecognized (tag : String)
deriving DecidableEq, Repr

/-- Model of `ui.Layer.LayerData` as consumed by Submission.py. The source keeps
one `cmd` dict whose keys are plain strings for the named engines and
`(flag, isPath, isMandatory)` tuples for the dynamic builder; the two
key shapes are split into `cmd` and `dynCmd` here. `cores` is the
numeric value of `float(layerData.cores)`. -/
structure LayerData where
  name : String
  layerType : LayerType
  cmd : List (String × PyVal)
  dynCmd : List (DynFlag × PyVal)
  layerRange : String
  chunk : Nat
  cores : ℚ
  overrideCores : Bool
  services : List String
  limits : List String
  dependType : Option String
deriving DecidableEq, Repr

/-- A built command: the dynamic builder (and the unrecognized-type
preview branch) returns a pre-joined string, the named-engine builders
return argument lists. -/
inductive Command where
  | str (s : String)
  | list (args : List PyVal)
deriving DecidableEq, Repr

instance {ε α : Type} [DecidableEq ε] [DecidableEq α] : DecidableEq (Except ε α) :=
  fun a b =>
    match a, b with
    | .error e1, .error e2 =>
        if h : e1 = e2 then isTrue (by rw [h]) else isFalse (by simp [h])
    | .ok v1, .ok v2 =>
        if h : v1 = v2 then isTrue (by rw [h]) else isFalse (by simp [h])
    | .error _, .ok _ => isFalse (by simp)
    | .ok _, .error _ => isFalse (by simp)

/-- Model of `buildMayaCmd` (line 78): raises unless silent when `mayaFile` is
falsy; emits the fixed invocation, an optional camera pair, then the
file. -/
def buildMayaCmd (ld : LayerData) (silent : Bool) : Except String (List PyVal) :=
  let camera := pyGet ld.cmd "camera"
  let mayaFile := pyGet ld.cmd "mayaFile"
  if !mayaFile.truthy && !silent then
    .error "ValueError: No Maya File provided. Cannot submit job."
  else
    .ok ([.str MAYA_RENDER_CMD, .str "-r", .str "file",
          .str "-s", .str FRAME_START_TOKEN, .str "-e", .str FRAME_END_TOKEN] ++
         (if camera.truthy then [.str "-cam", camera] else []) ++ [mayaFile])

/-- Model of `buildNukeCmd` (line 96): raises unless silent when `nukeFile` is
falsy; emits the fixed invocation, optional write nodes, then the
file. -/
def buildNukeCmd (ld : LayerData) (silent : Bool) : Except String (List PyVal) :=
  let writeNodes := pyGet ld.cmd "writeNodes"
  let nukeFile := pyGet ld.cmd "nukeFile"
  if !nukeFile.truthy && !silent then
    .error "ValueError: No Nuke file provided. Cannot submit job."
  else
    .ok ([.str NUKE_RENDER_CMD, .str "-F", .str FRAME_TOKEN] ++
         (if writeNodes.truthy then [.str "-X", writeNodes] else []) ++
         [.str "-x", nukeFile])

/-- Model of `buildBlenderCmd` (line 113): raises unless silent when
`blenderFile` is falsy; emits executable, background/no-audio flags,
file, optional compositing/output/format flags, then the frame-range
flags chosen by the `^\d+-\d+$` pattern. -/
def buildBlenderCmd (ld : LayerData) (silent : Bool) : Except String (List PyVal) :=
  let blenderFile := pyGet ld.cmd "blenderFile"
  let blenderExecutable := pyGetD ld.cmd "blenderExecutable" (.str BLENDER_RENDER_CMD)
  let outputPath := pyGet ld.cmd "outputPath"
  let outputFormat := pyGet ld.cmd "outputFormat"
  let useCompositing := pyGetD ld.cmd "useCompositing" (.bool true)
  let frameRange := ld.layerRange
  if !blenderFile.truthy && !silent then
    .error "ValueError: No Blender file provided. Cannot submit job."
  else
    .ok ([blenderExecutable, .str "-b", .str "-noaudio", blenderFile] ++
         (if useCompositing.truthy then [.str "--use-compositing"] else []) ++
         (if outputPath.truthy then [.str "-o", outputPath] else []) ++
         (if outputFormat.truthy then [.str "-F", outputFormat] else []) ++
         (if isFrameRangePattern frameRange then
            [.str "-s", .str FRAME_START_TOKEN, .str "-e", .str FRAME_END_TOKEN, .str "-a"]
          else [.str "-f", .str FRAME_TOKEN]))

/-- Model of `buildLayerCommand` (line 175): dispatch on the layer type. The
config table (`Constants.RENDER_CMDS[key].get('command')`, not under
src/, modelled from the spec's static mapping from dynamic-engine key to
base command template) is the `renderCmds` argument. The SHELL branch
indexes `cmd['commandTextBox']` (a KeyError when absent) in normal mode
and uses `.get` in silent mode, then shell-tokenizes a truthy command. -/
def buildLayerCommand (renderCmds : String → String) (ld : LayerData) (silent : Bool) :
    Except String Command :=
  match ld.layerType with
  | .dynamicConfig key => .ok (.str (buildDynamicCmd (renderCmds key) ld.dynCmd))
  | .maya => (buildMayaCmd ld silent).map .list
  | .shell =>
      match (if silent then some (pyGet ld.cmd "commandTextBox")
             else pyLookup ld.cmd "commandTextBox") with
      | Option.none => .error "KeyError: commandTextBox"
      | some shellCmd =>
          if shellCmd.truthy then
            match shellCmd with
            | .str s =>
                match shlexSplit s with
                | some toks => .ok (.list (toks.map .str))
                | Option.none => .error "ValueError: No closing quotation"
            | _ => .error "AttributeError: shlex.split expects a string"
          else .ok (.list [])
  | .nuke => (buildNukeCmd ld silent).map .list
  | .blender => (buildBlenderCmd ld silent).map .list
  | .unrecognized tag =>
      if silent then .ok (.str ("Error: unrecognized layer type " ++ tag))
      else .error ("ValueError: unrecognized layer type " ++ tag)

/-- Modelled from the spec (the module `cuesubmit.Util` is not under
src/): the external service registry, exposing the set of service names
(`Util.getServices`) and each service's configured threadable option
(`Util.getServiceOption(name, 'threadable')`). -/
structure ServiceRegistry where
  names : List String
  threadableOpt : String → Bool

/-- Dependency kind of an edge between two layers: `depend_all`
(all-to-all) or `depend_on` (frame-indexed). -/
inductive DependKind where
  | all
  | onFrames
deriving DecidableEq, Repr

/-- The `outline.modules.shell.Shell` layer object as configured by
`buildLayer`: predecessor layers are identified by their position in the
job's layer list, so a dependency edge carries its kind and the
predecessor's index. -/
structure ShellLayer where
  name : String
  command : List PyVal
  chunk : Nat
  cores : Option ℚ
  range : String
  threadable : Bool
  service : Option String
  limits : List String
  depend : Option (DependKind × Nat)
deriving DecidableEq, Repr

/-- Lines 151-155 of `buildLayer`: threadable from an explicit cores
override (`float(cores) >= 2 or float(cores) <= 0`), else from the first
service when the registry knows it, else `False`. -/
def resolveThreadable (reg : ServiceRegistry) (ld : LayerData) : Bool :=
  if ld.overrideCores then
    decide ((2 : ℚ) ≤ ld.cores) || decide (ld.cores ≤ (0 : ℚ))
  else
    match ld.services with
    | [] => false
    | s0 :: _ => if s0 ∈ reg.names then reg.threadableOpt s0 else false

/-- Python truthiness of `layerData.dependType` (an optional string). -/
def dependTruthy : Option String → Bool
  | Option.none => false
  | some s => !s.isEmpty

/-- Lines 167-172 of `buildLayer`: a dependency edge on the previous
layer when `dependType` is truthy and a previous layer exists —
`depend_all` for the string `'Layer'`, `depend_on` otherwise. -/
def dependOf (dt : Option String) (lastLayer : Option Nat) : Option (DependKind × Nat) :=
  match lastLayer with
  | some prev =>
      if dependTruthy dt then
        some (if dt = some "Layer" then (.all, prev) else (.onFrames, prev))
      else Option.none
  | Option.none => Option.none

/-- Model of `buildLayer` (line 141). `lastLayer` is the index of the previous
layer in the job, if any. A string command is tokenized with
`shlex.split` (line 158), whose failure propagates as `none`. -/
def buildLayer (reg : ServiceRegistry) (ld : LayerData) (command : Command)
    (lastLayer : Option Nat) : Option ShellLayer :=
  let threadable := resolveThreadable reg ld
  let cores := if ld.overrideCores then some ld.cores else Option.none
  let tokens? : Option (List PyVal) :=
    match command with
    | .list args => some args
    | .str s => (shlexSplit s).map (fun ts => ts.map PyVal.str)
  tokens?.map (fun toks =>
    { name := ld.name
      command := toks
      chunk := ld.chunk
      cores := cores
      range := ld.layerRange
      threadable := threadable
      service := ld.services.head?
      limits := ld.limits
      depend := dependOf ld.dependType lastLayer })

/-- The job-level input mapping consumed by `submitJob`. (`show` is a
Lean keyword, hence `showName`.) -/
structure JobData where
  name : String
  shot : String
  showName : String
  username : String
  facility : Option String
  layers : List LayerData

/-- The `outline.Outline` object assembled by `submitJob`. -/
structure JobOutline where
  name : String
  shot : String
  showName : String
  user : String
  facility : Option String
  layers : List ShellLayer
deriving DecidableEq, Repr

/-- The loop of `submitJob` (lines 199-204): build each layer's command
in normal (non-silent) mode, assemble the layer against the previous
one, and append; `i` is the index of the next layer. -/
def buildLayersAux (reg : ServiceRegistry) (renderCmds : String → String) :
    List LayerData → Nat → Except String (List ShellLayer)
  | [], _ => .ok []
  | ld :: rest, i =>
      match buildLayerCommand renderCmds ld false with
      | .error e => .error e
      | .ok command =>
          match buildLayer reg ld command (if i = 0 then Option.none else some (i - 1)) with
          | Option.none => .error "ValueError: No closing quotation"
          | some layer =>
              match buildLayersAux reg renderCmds rest (i + 1) with
              | .error e => .error e
              | .ok others => .ok (layer :: others)

/-- Model of `submitJob` (line 195): assemble the outline and hand it to
`outline.cuerun.launch` exactly once; the `Nat` component counts the
launch calls made on the success path. Any error aborts before the
launch. -/
def submitJob (reg : ServiceRegistry) (renderCmds : String → String) (jobData : JobData) :
    Except String (JobOutline × Nat) :=
  match buildLayersAux reg renderCmds jobData.layers 0 with
  | .error e => .error e
  | .ok layers =>
      .ok ({ name := jobData.name, shot := jobData.shot, showName := jobData.showName,
             user := jobData.username, facility := jobData.facility, layers := layers }, 1)

/-- Whether a built command is the string form (as opposed to an
argument list). -/
def Command.isStr : Command → Bool
  | .str _ => true
  | .list _ => false

/-- Whether a command-building result succeeded with a string command. -/
def okStr : Except String Command → Bool
  | .ok c => c.isStr
  | .error _ => false

/-- Whether a char list starts with the pattern `p`. -/
def startsWithChars : List Char → List Char → Bool
  | [], _ => true
  | _ :: _, [] => false
  | a :: p, b :: l => a = b && startsWithChars p l

/-- Whether the pattern `p` occurs as a contiguous run inside `l`. -/
def hasSubChars (p : List Char) : List Char → Bool
  | [] => startsWithChars p []
  | c :: t => startsWithChars p (c :: t) || hasSubChars p t

/-- Whether `pat` occurs as a substring of `s`. -/
def strContains (s pat : String) : Bool :=
  hasSubChars pat.toList s.toList

/-- The dependency edge the spec prescribes for the layer at position
`i` of a job (written from the spec's words, to be compared with the
edges the code produces): no edge for the first layer, an edge to layer
`i - 1` when `dependType` is truthy — all-to-all for `"Layer"`,
frame-indexed otherwise — and no edge when `dependType` is unset. -/
def dependSpec (dt : Option String) (i : Nat) : Option (DependKind × Nat) :=
  if i = 0 then Option.none
  else if dependTruthy dt then
    some (if dt = some "Layer" then (DependKind.all, i - 1) else (DependKind.onFrames, i - 1))
  else Option.none

/-- A neutral `LayerData` the concrete test layers are built from. -/
def baseLD : LayerData :=
  { name := "layer", layerType := .shell, cmd := [], dynCmd := [],
    layerRange := "1", chunk := 1, cores := 0, overrideCores := false,
    services := [], limits := [], dependType := Option.none }

/-- A concrete service registry: one service, `arnold`, threadable. -/
def reg0 : ServiceRegistry :=
  { names := ["arnold"], threadableOpt := fun s => s == "arnold" }

/-- A concrete dynamic-command config table. -/
def rc0 : String → String := fun _ => "renderctl"

/-- A MAYA layer with a camera but no `mayaFile` entry. -/
def mayaNoFile : LayerData :=
  { baseLD with name := "mayaLayer", layerType := .maya, cmd := [("camera", .str "persp")] }

/-- A SHELL layer whose command text mixes quoted and bare tokens. -/
def shellQuotedLD : LayerData :=
  { baseLD with
    name := "quoted"
    cmd := [("commandTextBox", .str "\"my app\" --flag \"value with space\"")] }

/-- First layer of the three-layer job: no dependency. -/
def layerA : LayerData :=
  { baseLD with name := "layerA", cmd := [("commandTextBox", .str "echo one")] }

/-- Second layer: depends on its predecessor with `dependType='Layer'`. -/
def layerB : LayerData :=
  { baseLD with
    name := "layerB"
    cmd := [("commandTextBox", .str "echo two")]
    dependType := some "Layer" }

/-- Third layer: no `dependType`. -/
def layerC : LayerData :=
  { baseLD with name := "layerC", cmd := [("commandTextBox", .str "echo three")] }

/-- The spec's three-layer example job. -/
def jd3 : JobData :=
  { name := "job3", shot := "sh01", showName := "testing", username := "artist",
    facility := Option.none, layers := [layerA, layerB, layerC] }

/-- A job whose second layer is the MAYA layer with no `mayaFile`. -/
def jdBad : JobData :=
  { jd3 with name := "jobBad", layers := [layerA, mayaNoFile, layerC] }

/-- The layer object `buildLayer` produces for `layerA` at index 0. -/
def builtA : ShellLayer :=
  { name := "layerA", command := [.str "echo", .str "one"], chunk := 1,
    cores := Option.none, range := "1", threadable := false, service := Option.none,
    limits := [], depend := Option.none }

/-- The layer object for `layerB` at index 1: all-to-all edge to 0. -/
def builtB : ShellLayer :=
  { builtA with
    name := "layerB"
    command := [.str "echo", .str "two"]
    depend := some (DependKind.all, 0) }

/-- The layer object for `layerC` at index 2: no edge. -/
def builtC : ShellLayer :=
  { builtA with name := "layerC", command := [.str "echo", .str "three"] }

/-- The outline `submitJob` assembles for `jd3`. -/
def ol3 : JobOutline :=
  { name := "job3", shot := "sh01", showName := "testing", user := "artist",
    facility := Option.none, layers := [builtA, builtB, builtC] }

/-- A BLENDER layer with an `N-M` frame range and no `useCompositing`
key. -/
def blenderRangeLD : LayerData :=
  { baseLD with
    name := "blenderRange"
    layerType := .blender
    cmd := [("blenderFile", .str "/shots/scene.blend")]
    layerRange := "1-100" }

/-- A BLENDER layer with a single-frame range. -/
def blenderSingleLD : LayerData :=
  { blenderRangeLD with name := "blenderSingle", layerRange := "50" }

/-- The argument list built for `blenderRangeLD`. -/
def argsRange : List PyVal :=
  [.str "blender", .str "-b", .str "-noaudio", .str "/shots/scene.blend",
   .str "--use-compositing", .str "-s", .str "#FRAME_START#", .str "-e",
   .str "#FRAME_END#", .str "-a"]

/-- The argument list built for `blenderSingleLD`. -/
def argsSingle : List PyVal :=
  [.str "blender", .str "-b", .str "-noaudio", .str "/shots/scene.blend",
   .str "--use-compositing", .str "-f", .str "#IFRAME#"]

/-- The flag tokens the Blender frame-range branch chooses between. -/
def rangeFlagTokens : List PyVal :=
  [.str "-f", .str "-s", .str "-e", .str "-a"]

/-- The four user-supplied values that reach the Blender argument list
besides fixed flag literals: executable, file, output path, output
format. -/
def blenderUserVals (ld : LayerData) : List PyVal :=
  [pyGetD ld.cmd "blenderExecutable" (.str BLENDER_RENDER_CMD),
   pyGet ld.cmd "blenderFile", pyGet ld.cmd "outputPath", pyGet ld.cmd "outputFormat"]

/-- Whether an `Except` result is a success. -/
def exceptOk {α : Type} : Except String α → Bool
  | .ok _ => true
  | .error _ => false


/-- Claim C1, counterexample: on a MAYA layer with no `mayaFile`,
normal mode raises, but preview/silent mode returns the argument list
(ending in the falsy file value) — not a diagnostic string as the claim
states. -/
theorem subm_C1_counterexample :
    buildLayerCommand rc0 mayaNoFile false =
      .error "ValueError: No Maya File provided. Cannot submit job." ∧
    buildLayerCommand rc0 mayaNoFile true =
      .ok (.list [.str "Render", .str "-r", .str "file", .str "-s", .str "#FRAME_START#",
        .str "-e", .str "#FRAME_END#", .str "-cam", .str "persp", PyVal.none]) ∧
    okStr (buildLayerCommand rc0 mayaNoFile true) = false := by decide

/-- Claim C1, amended: for every MAYA layer whose `mayaFile` entry is
absent or empty, building the command in normal mode raises the
validation error, and building it in preview/silent mode returns —
without raising — the Maya argument list with the missing file as its
falsy final element. -/
theorem subm_C1_maya_missing (rc : String → String) (ld : LayerData)
    (hty : ld.layerType = .maya)
    (hfile : pyGet ld.cmd "mayaFile" = PyVal.none ∨ pyGet ld.cmd "mayaFile" = .str "") :
    buildLayerCommand rc ld false =
      .error "ValueError: No Maya File provided. Cannot submit job." ∧
    buildLayerCommand rc ld true =
      .ok (.list ([.str MAYA_RENDER_CMD, .str "-r", .str "file", .str "-s",
        .str FRAME_START_TOKEN, .str "-e", .str FRAME_END_TOKEN] ++
        (if (pyGet ld.cmd "camera").truthy then [.str "-cam", pyGet ld.cmd "camera"]
         else []) ++
        [pyGet ld.cmd "mayaFile"])) := by
  have hf : (pyGet ld.cmd "mayaFile").truthy = false := by
    rcases hfile with h | h <;> rw [h] <;> decide
  constructor
  · simp [buildLayerCommand, hty, buildMayaCmd, hf, Except.map]
  · simp [buildLayerCommand, hty, buildMayaCmd, hf, Except.map]

/-- Claim C1, witness for the amended theorem at `mayaNoFile`. -/
theorem subm_C1_witness :
    buildLayerCommand rc0 mayaNoFile false =
      .error "ValueError: No Maya File provided. Cannot submit job." ∧
    buildLayerCommand rc0 mayaNoFile true =
      .ok (.list [.str "Render", .str "-r", .str "file", .str "-s", .str "#FRAME_START#",
        .str "-e", .str "#FRAME_END#", .str "-cam", .str "persp", PyVal.none]) := by
  have h := subm_C1_maya_missing rc0 mayaNoFile (by decide) (Or.inl (by decide))
  exact ⟨h.1, by rw [h.2]; decide⟩

/-- Claim C2: the resolved threadable flag of an assembled layer — an
explicit cores override gives threadable iff cores ≥ 2 or cores ≤ 0
(concretely false at 1, true at 0 and at 8); otherwise the first listed
service decides via the registry, an unknown first service giving
`false`; no services gives `false`. -/
theorem subm_C2_threadable (reg : ServiceRegistry) (ld : LayerData) (args : List PyVal)
    (lastLayer : Option Nat) :
    ((buildLayer reg ld (.list args) lastLayer).map ShellLayer.threadable =
      some (if ld.overrideCores then
              decide ((2 : ℚ) ≤ ld.cores) || decide (ld.cores ≤ (0 : ℚ))
            else
              match ld.services with
              | [] => false
              | s0 :: _ => if s0 ∈ reg.names then reg.threadableOpt s0 else false)) ∧
    resolveThreadable reg { ld with overrideCores := true, cores := 1 } = false ∧
    resolveThreadable reg { ld with overrideCores := true, cores := 0 } = true ∧
    resolveThreadable reg { ld with overrideCores := true, cores := 8 } = true ∧
    resolveThreadable reg0 { ld with overrideCores := false, services := ["ghost"] } = false := by
  refine ⟨rfl, ?_, ?_, ?_, ?_⟩
  · norm_num [resolveThreadable]
  · norm_num [resolveThreadable]
  · norm_num [resolveThreadable]
  · simp [resolveThreadable, reg0]

/-- Claim C5, counterexample: a solo-pattern flag marked mandatory with
no value is emitted bare — the sentinel never reaches the command, so
the claim's universal statement over every flag fails on solo flags. -/
theorem subm_C5_counterexample :
    buildDynamicCmd "render" [(⟨"--bg~", false, true⟩, PyVal.none)] = "render --bg" ∧
    strContains "render --bg" "!!missing value for --bg~!!" = false ∧
    strContains "render --bg" "!!missing value for" = false := by decide

/-- Claim C5, amended: for every non-solo flag token with
`isMandatory = true` and value empty or `None`, the formatter returns
exactly the `!!missing value for <flag>!!` sentinel, and the dynamic
builder appends it inline — as `flag sentinel` when the token is a
recognized flag, as a bare positional otherwise. (Solo-pattern tokens
ignore their value entirely, per C7.) -/
theorem subm_C5_mandatory (base f : String) (p : Bool) (v : PyVal)
    (rest : List (DynFlag × PyVal)) (hsolo : isSoloFlag f = false)
    (hv : v = PyVal.none ∨ v = .str "") :
    formatValue f v p true = .str ("!!missing value for " ++ f ++ "!!") ∧
    buildDynamicCmd base ((⟨f, p, true⟩, v) :: rest) =
      buildDynamicCmd
        (if isFlag f then base ++ " " ++ f ++ " " ++ ("!!missing value for " ++ f ++ "!!")
         else base ++ " " ++ ("!!missing value for " ++ f ++ "!!")) rest := by
  have hveq : formatValue f v p true = .str ("!!missing value for " ++ f ++ "!!") := by
    have he : ("" : String).isEmpty = true := rfl
    rcases hv with h | h <;> simp [h, formatValue, PyVal.truthy, he]
  have hne : ("!!missing value for " ++ f ++ "!!" : String) ≠ "" := by
    intro h
    have hl := congrArg String.length h
    rw [String.length_append, String.length_append] at hl
    have e1 : ("!!missing value for " : String).length = 20 := rfl
    have e2 : ("!!" : String).length = 2 := rfl
    have e3 : ("" : String).length = 0 := rfl
    rw [e1, e2, e3] at hl
    omega
  refine ⟨hveq, ?_⟩
  by_cases hf : isFlag f <;>
    simp [buildDynamicCmd, dynStep, hsolo, hveq, hne, hf, pyStr]

/-- Claim C5, witness for the amended theorem at a recognized flag. -/
theorem subm_C5_witness :
    formatValue "-scene" PyVal.none true true = .str "!!missing value for -scene!!" ∧
    buildDynamicCmd "render" [(⟨"-scene", true, true⟩, PyVal.none)] =
      "render -scene !!missing value for -scene!!" := by
  have h := subm_C5_mandatory "render" "-scene" true PyVal.none [] (by decide) (Or.inl rfl)
  refine ⟨by rw [h.1]; decide, by rw [h.2]; decide⟩

/-- Claim C7: a flag token matching the solo pattern (dashes, word
characters, trailing tilde) is appended with the tilde stripped, and the
supplied value is ignored entirely — the rest of the command is built
independently of it. -/
theorem subm_C7_solo (base : String) (f : DynFlag) (v : PyVal)
    (rest : List (DynFlag × PyVal)) (hsolo : isSoloFlag f.flag = true) :
    buildDynamicCmd base ((f, v) :: rest) =
      buildDynamicCmd (base ++ " " ++ f.flag.dropRight 1) rest := by
  simp [buildDynamicCmd, dynStep, hsolo]

/-- Claim C7, witness: a concrete solo flag with a non-empty value. -/
theorem subm_C7_witness :
    buildDynamicCmd "cmd" [(⟨"--background~", false, false⟩, .str "ignored")] =
      "cmd --background" := by
  rw [subm_C7_solo "cmd" ⟨"--background~", false, false⟩ (.str "ignored") [] (by decide)]
  decide

/-- Claim C8: the SHELL command `"my app" --flag "value with space"`
tokenizes into exactly the three tokens `my app`, `--flag`,
`value with space` — quoted substrings survive as single tokens. -/
theorem subm_C8_shell_tokens :
    buildLayerCommand rc0 shellQuotedLD false =
      .ok (.list [.str "my app", .str "--flag", .str "value with space"]) := by decide

lemma suffix_app_last (X E : List PyVal) : E <:+ X ++ E :=
  ⟨X, rfl⟩

lemma not_mem_app {x : PyVal} {l1 l2 : List PyVal} (a : x ∉ l1) (b : x ∉ l2) :
    x ∉ l1 ++ l2 := by
  intro hx
  rcases List.mem_append.mp hx with h | h
  exacts [a h, b h]

lemma not_mem_ite_nil {x : PyVal} {c : Prop} [Decidable c] {l : List PyVal} (h : x ∉ l) :
    x ∉ (if c then l else []) := by
  split
  · exact h
  · simp

lemma buildBlenderCmd_ok (ld : LayerData) (silent : Bool) (args : List PyVal)
    (h : buildBlenderCmd ld silent = .ok args) :
    args =
      [pyGetD ld.cmd "blenderExecutable" (.str BLENDER_RENDER_CMD), .str "-b", .str "-noaudio",
       pyGet ld.cmd "blenderFile"] ++
      (if (pyGetD ld.cmd "useCompositing" (.bool true)).truthy = true
         then [.str "--use-compositing"] else []) ++
      (if (pyGet ld.cmd "outputPath").truthy = true
         then [.str "-o", pyGet ld.cmd "outputPath"] else []) ++
      (if (pyGet ld.cmd "outputFormat").truthy = true
         then [.str "-F", pyGet ld.cmd "outputFormat"] else []) ++
      (if isFrameRangePattern ld.layerRange = true then
         [.str "-s", .str FRAME_START_TOKEN, .str "-e", .str FRAME_END_TOKEN, .str "-a"]
       else [.str "-f", .str FRAME_TOKEN]) := by
  unfold buildBlenderCmd at h
  dsimp only at h
  split at h
  · exact Except.noConfusion h
  · exact (Except.ok.inj h).symm

/-- Claim C6: a BLENDER layer whose range matches `N-M` gets the
start/end placeholders plus `-a` as the final arguments and no `-f`
token; any other range gets `-f` plus the frame token and none of
`-s`/`-e`/`-a` — provided the user-supplied values are not themselves
these flag tokens. -/
theorem subm_C6_blender_range (ld : LayerData) (silent : Bool) (args : List PyVal)
    (h : buildBlenderCmd ld silent = .ok args)
    (hne : ∀ t ∈ rangeFlagTokens, t ∉ blenderUserVals ld) :
    (isFrameRangePattern ld.layerRange = true →
       ([.str "-s", .str FRAME_START_TOKEN, .str "-e", .str FRAME_END_TOKEN,
         .str "-a"] : List PyVal) <:+ args ∧ PyVal.str "-f" ∉ args) ∧
    (isFrameRangePattern ld.layerRange = false →
       ([.str "-f", .str FRAME_TOKEN] : List PyVal) <:+ args ∧
       PyVal.str "-s" ∉ args ∧ PyVal.str "-e" ∉ args ∧ PyVal.str "-a" ∉ args) := by
  have hfne := hne (.str "-f") (by simp [rangeFlagTokens])
  have hsne := hne (.str "-s") (by simp [rangeFlagTokens])
  have hene := hne (.str "-e") (by simp [rangeFlagTokens])
  have hane := hne (.str "-a") (by simp [rangeFlagTokens])
  simp only [blenderUserVals, List.mem_cons, List.not_mem_nil, or_false, not_or]
    at hfne hsne hene hane
  obtain rfl := buildBlenderCmd_ok ld silent args h
  constructor
  · intro hr
    simp only [hr, eq_self_iff_true, if_true]
    refine ⟨suffix_app_last _ _, ?_⟩
    refine not_mem_app (not_mem_app (not_mem_app (not_mem_app
      (by simp [hfne.1, hfne.2.1])
      (not_mem_ite_nil (by simp)))
      (not_mem_ite_nil (by simp [hfne.2.2.1])))
      (not_mem_ite_nil (by simp [hfne.2.2.2])))
      (by simp [FRAME_START_TOKEN, FRAME_END_TOKEN])
  · intro hr
    simp only [hr, Bool.false_eq_true, if_false]
    refine ⟨suffix_app_last _ _, ?_, ?_, ?_⟩
    · refine not_mem_app (not_mem_app (not_mem_app (not_mem_app
        (by simp [hsne.1, hsne.2.1])
        (not_mem_ite_nil (by simp)))
        (not_mem_ite_nil (by simp [hsne.2.2.1])))
        (not_mem_ite_nil (by simp [hsne.2.2.2])))
        (by simp [FRAME_TOKEN])
    · refine not_mem_app (not_mem_app (not_mem_app (not_mem_app
        (by simp [hene.1, hene.2.1])
        (not_mem_ite_nil (by simp)))
        (not_mem_ite_nil (by simp [hene.2.2.1])))
        (not_mem_ite_nil (by simp [hene.2.2.2])))
        (by simp [FRAME_TOKEN])
    · refine not_mem_app (not_mem_app (not_mem_app (not_mem_app
        (by simp [hane.1, hane.2.1])
        (not_mem_ite_nil (by simp)))
        (not_mem_ite_nil (by simp [hane.2.2.1])))
        (not_mem_ite_nil (by simp [hane.2.2.2])))
        (by simp [FRAME_TOKEN])

/-- Claim C6, witness: the spec's `1-100` and `50` Blender examples. -/
theorem subm_C6_witness :
    (([.str "-s", .str FRAME_START_TOKEN, .str "-e", .str FRAME_END_TOKEN,
       .str "-a"] : List PyVal) <:+ argsRange ∧ PyVal.str "-f" ∉ argsRange) ∧
    (([.str "-f", .str FRAME_TOKEN] : List PyVal) <:+ argsSingle ∧
     PyVal.str "-s" ∉ argsSingle ∧ PyVal.str "-e" ∉ argsSingle ∧
     PyVal.str "-a" ∉ argsSingle) := by
  constructor
  · exact (subm_C6_blender_range blenderRangeLD false argsRange (by decide)
      (by decide)).1 (by decide)
  · exact (subm_C6_blender_range blenderSingleLD false argsSingle (by decide)
      (by decide)).2 (by decide)

/-- Claim C9: in a built BLENDER argument list, `--use-compositing` is
present iff the effective `useCompositing` value (defaulting to `True`
when the key is absent) is truthy — in particular a missing key enables
it — provided no user-supplied value is itself that flag string. -/
theorem subm_C9_compositing (ld : LayerData) (silent : Bool) (args : List PyVal)
    (h : buildBlenderCmd ld silent = .ok args)
    (hne : PyVal.str "--use-compositing" ∉ blenderUserVals ld) :
    (PyVal.str "--use-compositing" ∈ args ↔
       (pyGetD ld.cmd "useCompositing" (.bool true)).truthy = true) ∧
    (pyLookup ld.cmd "useCompositing" = Option.none →
       (pyGetD ld.cmd "useCompositing" (.bool true)).truthy = true) := by
  simp only [blenderUserVals, List.mem_cons, List.not_mem_nil, or_false, not_or] at hne
  refine ⟨?_, ?_⟩
  swap
  · intro hnone
    simp [pyGetD, hnone, PyVal.truthy]
  obtain rfl := buildBlenderCmd_ok ld silent args h
  constructor
  · intro hmem
    rcases List.mem_append.mp hmem with hm | hm
    swap
    · revert hm
      split <;> simp [FRAME_START_TOKEN, FRAME_END_TOKEN, FRAME_TOKEN]
    rcases List.mem_append.mp hm with hm | hm
    swap
    · exact absurd hm (not_mem_ite_nil (by simp [hne.2.2.2]))
    rcases List.mem_append.mp hm with hm | hm
    swap
    · exact absurd hm (not_mem_ite_nil (by simp [hne.2.2.1]))
    rcases List.mem_append.mp hm with hm | hm
    · exact absurd hm (by simp [hne.1, hne.2.1])
    · by_cases hu : (pyGetD ld.cmd "useCompositing" (.bool true)).truthy = true
      · exact hu
      · simp [hu] at hm
  · intro hu
    refine List.mem_append.mpr (Or.inl (List.mem_append.mpr (Or.inl
      (List.mem_append.mpr (Or.inl (List.mem_append.mpr (Or.inr ?_)))))))
    simp [hu]

/-- Claim C9, witness: the `blenderRangeLD` layer has no
`useCompositing` key, and its built arguments carry the flag. -/
theorem subm_C9_witness : PyVal.str "--use-compositing" ∈ argsRange :=
  (subm_C9_compositing blenderRangeLD false argsRange (by decide)
    (by decide)).1.mpr (by decide)

lemma buildLayer_depend (reg : ServiceRegistry) (ld : LayerData) (c : Command)
    (lastLayer : Option Nat) (layer : ShellLayer)
    (h : buildLayer reg ld c lastLayer = some layer) :
    layer.depend = dependOf ld.dependType lastLayer := by
  cases c with
  | list args =>
      simp only [buildLayer, Option.map_some', Option.some.injEq] at h
      subst h
      rfl
  | str s =>
      cases hs : shlexSplit s with
      | none => simp [buildLayer, hs] at h
      | some ts =>
          simp only [buildLayer, hs, Option.map_some', Option.some.injEq] at h
          subst h
          rfl

lemma dependOf_dependSpec (dt : Option String) (i : Nat) :
    dependOf dt (if i = 0 then Option.none else some (i - 1)) = dependSpec dt i := by
  cases i <;> simp [dependOf, dependSpec]

lemma buildLayersAux_get (reg : ServiceRegistry) (rc : String → String) :
    ∀ (lds : List LayerData) (k i : Nat) (ls : List ShellLayer) (l : ShellLayer),
      buildLayersAux reg rc lds k = .ok ls → ls.get? i = some l →
      ∃ ld, lds.get? i = some ld ∧
        l.depend = dependOf ld.dependType
          (if k + i = 0 then Option.none else some (k + i - 1)) := by
  intro lds
  induction lds with
  | nil =>
      intro k i ls l h hl
      simp only [buildLayersAux] at h
      obtain rfl := Except.ok.inj h
      simp at hl
  | cons ld0 rest ih =>
      intro k i ls l h hl
      simp only [buildLayersAux] at h
      split at h
      · exact Except.noConfusion h
      next command hc =>
        split at h
        · exact Except.noConfusion h
        next layer hb =>
          split at h
          · exact Except.noConfusion h
          next others hrest =>
            obtain rfl := Except.ok.inj h
            cases i with
            | zero =>
                simp only [List.get?] at hl
                obtain rfl := Option.some.inj hl
                refine ⟨ld0, rfl, ?_⟩
                have hd := buildLayer_depend reg ld0 command _ layer hb
                simpa using hd
            | succ j =>
                obtain ⟨ld2, hld2, hdep⟩ :=
                  ih (k + 1) j others l hrest (by simpa using hl)
                refine ⟨ld2, by simpa using hld2, ?_⟩
                have harith : k + 1 + j = k + (j + 1) := by omega
                rw [harith] at hdep
                exact hdep

lemma buildLayersAux_cmd_ok (reg : ServiceRegistry) (rc : String → String) :
    ∀ (lds : List LayerData) (k : Nat) (ls : List ShellLayer),
      buildLayersAux reg rc lds k = .ok ls →
      ∀ ld ∈ lds, exceptOk (buildLayerCommand rc ld false) = true := by
  intro lds
  induction lds with
  | nil => intro k ls h ld hld; simp at hld
  | cons ld0 rest ih =>
      intro k ls h ld hld
      simp only [buildLayersAux] at h
      split at h
      · exact Except.noConfusion h
      next command hc =>
        split at h
        · exact Except.noConfusion h
        next layer hb =>
          split at h
          · exact Except.noConfusion h
          next others hrest =>
            rcases List.mem_cons.mp hld with rfl | hmem
            · simp [hc, exceptOk]
            · exact ih (k + 1) others hrest ld hmem

lemma submitJob_ok (reg : ServiceRegistry) (rc : String → String) (jd : JobData)
    (ol : JobOutline) (n : Nat) (h : submitJob reg rc jd = .ok (ol, n)) :
    n = 1 ∧ buildLayersAux reg rc jd.layers 0 = .ok ol.layers := by
  unfold submitJob at h
  split at h
  · exact Except.noConfusion h
  next layers hls =>
    obtain ⟨h1, h2⟩ := Prod.mk.inj (Except.ok.inj h)
    subst h1
    exact ⟨h2.symm, hls⟩

/-- Claim C3: in every successfully assembled job, the layer at
position `i` carries exactly the dependency edge the spec prescribes —
no edge for the first layer or when `dependType` is unset, otherwise an
edge to the immediately preceding layer `i - 1`, all-to-all when
`dependType = "Layer"` and frame-indexed for any other truthy value. -/
theorem subm_C3_depend (reg : ServiceRegistry) (rc : String → String) (jd : JobData)
    (ol : JobOutline) (n : Nat) (h : submitJob reg rc jd = .ok (ol, n))
    (i : Nat) (l : ShellLayer) (hl : ol.layers.get? i = some l) :
    ∃ ld, jd.layers.get? i = some ld ∧ l.depend = dependSpec ld.dependType i := by
  obtain ⟨-, hls⟩ := submitJob_ok reg rc jd ol n h
  obtain ⟨ld, hld, hdep⟩ := buildLayersAux_get reg rc jd.layers 0 i ol.layers l hls hl
  refine ⟨ld, hld, ?_⟩
  rw [hdep, ← dependOf_dependSpec ld.dependType i]
  norm_num

/-- Claim C3, witness: the spec's three-layer job — layer 2 (index 1)
with `dependType='Layer'` gets an all-to-all edge to layer 1, layer 3
gets no edge. -/
theorem subm_C3_witness :
    builtB.depend = dependSpec (some "Layer") 1 ∧
    builtC.depend = dependSpec Option.none 2 := by
  constructor
  · obtain ⟨ld, hld, hdep⟩ := subm_C3_depend reg0 rc0 jd3 ol3 1 (by decide) 1 builtB (by decide)
    have hB : jd3.layers.get? 1 = some layerB := by decide
    rw [hB] at hld
    obtain rfl := Option.some.inj hld
    simpa [layerB, baseLD] using hdep
  · obtain ⟨ld, hld, hdep⟩ := subm_C3_depend reg0 rc0 jd3 ol3 1 (by decide) 2 builtC (by decide)
    have hC : jd3.layers.get? 2 = some layerC := by decide
    rw [hC] at hld
    obtain rfl := Option.some.inj hld
    simpa [layerC, baseLD] using hdep

/-- Claim C4: a successful `submitJob` performs exactly one launch and
implies every layer's command built without error; conversely any layer
whose command build fails makes the whole assembly abort with an error
— the launch is never reached. -/
theorem subm_C4_single_launch (reg : ServiceRegistry) (rc : String → String) (jd : JobData) :
    (∀ ol n, submitJob reg rc jd = .ok (ol, n) →
       n = 1 ∧ ∀ ld ∈ jd.layers, exceptOk (buildLayerCommand rc ld false) = true) ∧
    ((∃ ld ∈ jd.layers, exceptOk (buildLayerCommand rc ld false) = false) →
       ∃ e, submitJob reg rc jd = .error e) := by
  constructor
  · intro ol n h
    obtain ⟨h1, hls⟩ := submitJob_ok reg rc jd ol n h
    exact ⟨h1, fun ld hld => buildLayersAux_cmd_ok reg rc jd.layers 0 ol.layers hls ld hld⟩
  · rintro ⟨ld, hld, hbad⟩
    cases hsub : submitJob reg rc jd with
    | error e => exact ⟨e, rfl⟩
    | ok p =>
        obtain ⟨-, hls⟩ := submitJob_ok reg rc jd p.1 p.2 (by rw [hsub])
        have hok := buildLayersAux_cmd_ok reg rc jd.layers 0 p.1.layers hls ld hld
        simp [hok] at hbad

/-- Claim C4, witness: the good job builds every command (`layerB`
shown), while the job containing the file-less MAYA layer errors out
before any launch. -/
theorem subm_C4_witness :
    exceptOk (buildLayerCommand rc0 layerB false) = true ∧
    exceptOk (submitJob reg0 rc0 jdBad) = false := by
  constructor
  · exact ((subm_C4_single_launch reg0 rc0 jd3).1 ol3 1 (by decide)).2 layerB (by decide)
  · obtain ⟨e, he⟩ := (subm_C4_single_launch reg0 rc0 jdBad).2
      ⟨mayaNoFile, by decide, by decide⟩
    rw [he]
    rfl

/-- Claim C10: the layer assembler normalizes the command — a list
passes through unchanged, a string is tokenized with shell-quoting
rules (`shlexSplit`), so a constructed layer always carries a token
list. -/
theorem subm_C10_tokens (reg : ServiceRegistry) (ld : LayerData) (lastLayer : Option Nat) :
    (∀ args : List PyVal,
       (buildLayer reg ld (.list args) lastLayer).map ShellLayer.command = some args) ∧
    (∀ s : String,
       (buildLayer reg ld (.str s) lastLayer).map ShellLayer.command =
         (shlexSplit s).map (fun ts => ts.map PyVal.str)) := by
  constructor
  · intro args; rfl
  · intro s; cases h : shlexSplit s <;> simp [buildLayer, h]

end OpenCueSub
